import Mathlib

/-!
Shallow embedding of the gateway connection engine of this repository
(src/gateway.py and src/discord_gateway.py): message codec, outbound
queue, receive loop, send loop, ping/reconnect loop, liveness countdown.

Python values decoded from JSON are modelled by `JVal`; Python runtime
exceptions by `PyExc`.  Machine state mutated through `self` is the
record `DGState`.  Time is not modelled: a timer is a record carrying
the interval it was created with, and its firing is the explicit
transition `zombie_timer_fire`.
-/

/-- JSON-like values, as produced by Python's `json.loads`. -/
inductive JVal where
  | jnull : JVal
  | jbool : Bool → JVal
  | jint : Int → JVal
  | jstr : String → JVal
  | jarr : List JVal → JVal
  | jobj : List (String × JVal) → JVal

/-- Python runtime exceptions relevant to the embedded code (all are
`Exception` subclasses; `SystemExit` from `exit()` is kept separate
because it is *not* an `Exception` subclass). -/
inductive PyExc where
  | keyError : String → PyExc
  | typeError : PyExc
  | attributeError : String → PyExc
  | jsonDecodeError : PyExc
  | handlerError : String → PyExc
  deriving Repr, DecidableEq

/-- Python `obj[k]`: `KeyError` when the key is missing, `TypeError`
when the value is not a dict. -/
def pyIndex (v : JVal) (k : String) : Except PyExc JVal :=
  match v with
  | .jobj fields =>
    match fields.lookup k with
    | some x => .ok x
    | none => .error (.keyError k)
  | _ => .error .typeError

/-- Python `v == n` for an int literal `n` (`True == 1` in Python). -/
def pyEqInt (v : JVal) (n : Int) : Bool :=
  match v with
  | .jint m => m == n
  | .jbool b => (if b then (1 : Int) else 0) == n
  | _ => false

/-- src/gateway.py `GatewayMessage` (dataclass).  Fields keep the dynamic
JSON values the Python attributes hold. -/
structure GatewayMessage where
  op : JVal
  data : JVal
  sequence : JVal
  session_id : JVal
  name : JVal

/-- src/gateway.py `parse_msg`: an inbound frame is `none` when
`json.loads` fails (malformed JSON), otherwise the decoded value.
`obj['op']`, `obj['d']`, `obj['s']` raise on a missing key or non-dict;
`session_id` and `t` default to `''`. -/
def parse_msg (frame : Option JVal) : Except PyExc GatewayMessage :=
  match frame with
  | none => .error .jsonDecodeError
  | some obj =>
    match pyIndex obj "op" with
    | .error e => .error e
    | .ok op =>
      match pyIndex obj "d" with
      | .error e => .error e
      | .ok data =>
        match pyIndex obj "s" with
        | .error e => .error e
        | .ok s =>
          let sid := match pyIndex obj "session_id" with
            | .ok v => v
            | .error _ => .jstr ""
          let nm := match pyIndex obj "t" with
            | .ok v => v
            | .error _ => .jstr ""
          .ok ⟨op, data, s, sid, nm⟩

/-- A `zombie_timer` task: `id` distinguishes task objects, `interval`
is the argument `self._heartbeat` it was created with. -/
structure Timer where
  id : Nat
  interval : Rat
  deriving Repr, DecidableEq

/-- src/gateway.py `zombie_timer` sleeps `interval*2` before setting the
zombie event, so the countdown duration is twice the interval. -/
def Timer.duration (t : Timer) : Rat := t.interval * 2

/-- Combined mutable state of a `DiscordGateway` object (fields of
`Gateway.__init__` plus `DiscordGateway.__init__`).  `attrs` records
which instance attribute names the constructors actually assigned
(class-level annotations such as `_zombie: asyncio.Event` create no
attribute).  `outstanding` is the set of countdown tasks created and
neither cancelled nor fired; `handlers` the registered event names. -/
structure DGState where
  token : String
  q : List JVal
  heartbeat : Rat
  session_id : String
  sequence : JVal
  gw_url : String
  zombies : Bool
  attrs : List String
  zombie_countdown : Option Timer
  outstanding : List Timer
  nextId : Nat
  handlers : List String

/-- Instance attributes assigned by `Gateway.__init__`. -/
def gateway_attrs : List String :=
  ["log", "_token", "_q", "_heartbeat", "_session_id", "_sequence", "gw_url", "_zombies"]

/-- Instance attributes after `DiscordGateway.__init__` (which calls
`Gateway.__init__` and then assigns `_handlers` and `zombie_countdown`;
`engine = None` there is a local variable, not an attribute). -/
def discord_gateway_attrs : List String :=
  gateway_attrs ++ ["_handlers", "zombie_countdown"]

/-- State produced by `DiscordGateway.__init__(token)`. -/
def DiscordGateway.init (token : String) : DGState :=
  { token := token
    q := []
    heartbeat := 60
    session_id := ""
    sequence := .jnull
    gw_url := ""
    zombies := false
    attrs := discord_gateway_attrs
    zombie_countdown := none
    outstanding := []
    nextId := 0
    handlers := [] }

/-- Model of `Gateway.send`: `await self._q.put(msg)` on an unbounded
`asyncio.Queue` appends to the tail and never blocks or raises. -/
def Gateway.send (s : DGState) (m : JVal) : DGState :=
  { s with q := s.q ++ [m] }

/-- The heartbeat payload `{"op": 1, "d": self._sequence}` built by the
ping loop and by the op-1 branch of `handle_message`. -/
def heartbeat_msg (s : DGState) : JVal :=
  .jobj [("op", .jint 1), ("d", s.sequence)]

/-- The identify payload built in the hello branch of
`DiscordGateway.handle_message` (`sys.platform` abstracted as a fixed
string; it does not affect any claim). -/
def sys_platform : String := "linux"

def identify_json (s : DGState) : JVal :=
  .jobj [("op", .jint 2),
         ("d", .jobj [("token", .jstr s.token), ("intents", .jint 513),
                      ("properties", .jobj [("$os", .jstr sys_platform)])])]

/-- The resume payload built in `Gateway.reconnect`. -/
def gateway_resume (s : DGState) : JVal :=
  .jobj [("op", .jint 6),
         ("d", .jobj [("token", .jstr s.token),
                      ("session_id", .jstr s.session_id),
                      ("seq", s.sequence)])]

/-- Model of `asyncio.create_task(self.zombie_timer(self._heartbeat))`: registers
a fresh countdown task with the current heartbeat interval.  Returns the
updated state and the new task.  The previous task, if any, is *not*
cancelled here. -/
def create_countdown (s : DGState) : DGState × Timer :=
  let t : Timer := ⟨s.nextId, s.heartbeat⟩
  ({ s with nextId := s.nextId + 1, outstanding := s.outstanding ++ [t] }, t)

/-- Python `x / 1000` on a decoded JSON value: exact division for an
int (floats are modelled as rationals), `TypeError` otherwise. -/
def pyDiv1000 (v : JVal) : Except PyExc Rat :=
  match v with
  | .jint n => .ok ((n : Rat) / 1000)
  | _ => .error .typeError

/-- Outcome of running a piece of Python code over the object state:
normal return, an `Exception`-subclass raise (caught by
`except Exception` clauses), or `SystemExit` from `exit()` (NOT caught
by `except Exception`). -/
inductive HRes where
  | ok : DGState → HRes
  | exc : PyExc → DGState → HRes
  | sysExit : DGState → HRes

/-- State carried by an `HRes`, whichever outcome occurred. -/
def HRes.state : HRes → DGState
  | .ok s => s
  | .exc _ s => s
  | .sysExit s => s

/-- Semantics of the registered event handlers: what
`self._handlers[event](msg)` does to the object state.  Handlers are
arbitrary application code, so they are a parameter. -/
def HandlerSem : Type :=
  String → GatewayMessage → DGState → HRes

/-- Model of `DiscordGateway.handle_message`.  Branches in source order:
op 1 enqueues a heartbeat; op 10 (hello) sets `_heartbeat` from
`data['heartbeat_interval'] / 1000`, creates a countdown task
(without cancelling a prior one) and enqueues an identify; op 11 (ack)
calls `self.zombie_countdown.cancel()` — `AttributeError` when it is
still `None` — then creates a fresh countdown; op 9 logs and calls
`exit()`; anything else is dispatched to the handler table under
`msg.name.lower()`, unknown events are ignored. -/
def DiscordGateway.handle_message (hsem : HandlerSem) (s : DGState)
    (msg : GatewayMessage) : HRes :=
  if pyEqInt msg.op 1 then
    .ok (Gateway.send s (heartbeat_msg s))
  else if pyEqInt msg.op 10 then
    match pyIndex msg.data "heartbeat_interval" with
    | .error e => .exc e s
    | .ok v =>
      match pyDiv1000 v with
      | .error e => .exc e s
      | .ok hb =>
        let s1 := { s with heartbeat := hb }
        let p := create_countdown s1
        let s3 := { p.1 with zombie_countdown := some p.2 }
        .ok (Gateway.send s3 (identify_json s3))
  else if pyEqInt msg.op 11 then
    match s.zombie_countdown with
    | none => .exc (.attributeError "cancel") s
    | some t =>
      let s1 := { s with outstanding := s.outstanding.erase t }
      let p := create_countdown s1
      .ok { p.1 with zombie_countdown := some p.2 }
  else if pyEqInt msg.op 9 then
    .sysExit s
  else
    match msg.name with
    | .jstr nm =>
      let event := nm.toLower
      if s.handlers.contains event then hsem event msg s
      else .ok s
    | _ => .exc (.attributeError "lower") s

/-- Trivial handler semantics: every registered handler returns with the
state unchanged. -/
def hsem0 : HandlerSem := fun _ _ s => .ok s

/-- Setting of the zombie event by a fired `zombie_timer`
(`self._zombies.set()` after the sleep). -/
def zombie_timer_fire (s : DGState) : DGState := { s with zombies := true }

/-- The line `wait = self._heartbeat`: the delay between heartbeat sends in
`Gateway._ping_loop`. -/
def ping_wait (s : DGState) : Rat := s.heartbeat

/-- Outcome of `Gateway._recv_loop` over a finite list of inbound
frames: ran them all, or died at an uncaught decode error (`parse_msg`
runs *outside* the `try` block), or died at a `SystemExit` (not caught
by `except Exception`).  The crash outcomes carry the frames never
examined. -/
inductive RecvOutcome where
  | done : DGState → RecvOutcome
  | decodeCrash : PyExc → DGState → List (Option JVal) → RecvOutcome
  | exitCrash : DGState → List (Option JVal) → RecvOutcome

/-- State carried by a `RecvOutcome`. -/
def RecvOutcome.state : RecvOutcome → DGState
  | .done s => s
  | .decodeCrash _ s _ => s
  | .exitCrash s _ => s

/-- Model of `Gateway._recv_loop`: for each frame, decode (outside the `try`),
then inside the `try` assign `self._sequence = decoded.sequence`
unconditionally and call `handle_message`; `except Exception` logs and
continues with the next frame. -/
def Gateway.recv_loop (hsem : HandlerSem) : DGState → List (Option JVal) → RecvOutcome
  | s, [] => .done s
  | s, f :: rest =>
    match parse_msg f with
    | .error e => .decodeCrash e s rest
    | .ok m =>
      let s1 := { s with sequence := m.sequence }
      match DiscordGateway.handle_message hsem s1 m with
      | .ok s2 => Gateway.recv_loop hsem s2 rest
      | .exc _ s2 => Gateway.recv_loop hsem s2 rest
      | .sysExit s2 => .exitCrash s2 rest

/-- Model of the `Gateway._send_loop` wire output while draining the queue:
`self._q.get()` removes the front of the FIFO and `ws.send_json`
writes it, so messages hit the wire in queue order. -/
def Gateway.send_loop_wire : List JVal → List JVal
  | [] => []
  | m :: rest => m :: Gateway.send_loop_wire rest

/-- Effect of a *successful* `Gateway.reconnect` call on the object
state: after closing and re-opening the stream it enqueues the
`gateway_resume` payload unconditionally. -/
def Gateway.reconnect_effect (s : DGState) : DGState :=
  Gateway.send s (gateway_resume s)

/-- Model of `self._zombie.clear()` in the ping loop's success branch: an
attribute access on `self` that succeeds only if `_zombie` was actually
assigned by a constructor. -/
def zombie_clear (s : DGState) : Except PyExc DGState :=
  if s.attrs.contains "_zombie" then .ok { s with zombies := false }
  else .error (.attributeError "_zombie")

/-- Result of the `for attempt in range(3)` reconnect block in
`Gateway._ping_loop`: an uncaught exception escaping the ping loop
(nothing around the block catches), a `break` after a fully successful
attempt, or the `for`-`else` (all attempts raised) which only logs and
falls through. -/
inductive BranchRes where
  | crashed : PyExc → DGState → BranchRes
  | broke : DGState → BranchRes
  | exhausted : DGState → BranchRes

/-- The reconnect `for` block with `remaining` iterations left.
`outcome i` tells whether the i-th reconnect attempt (globally counted)
raises (`false`) or returns (`true`); a raising attempt is caught,
logged, slept over and retried; a returning attempt has enqueued the
resume and then evaluates `self._zombie.clear()` before `break`.
Returns the number of attempts made and the block result. -/
def Gateway.reconnect_for (outcome : Nat → Bool) (s : DGState) (i : Nat) :
    Nat → Nat × BranchRes
  | 0 => (0, .exhausted s)
  | r + 1 =>
    if outcome i then
      let s1 := Gateway.reconnect_effect s
      match zombie_clear s1 with
      | .ok s2 => (1, .broke s2)
      | .error e => (1, .crashed e s1)
    else
      let p := Gateway.reconnect_for outcome s (i + 1) r
      (p.1 + 1, p.2)

/-- Outcome of running `Gateway._ping_loop` for a bounded number of
`while True` iterations: still looping, or dead at an uncaught
exception.  Carries the total number of reconnect attempts made. -/
inductive PingOutcome where
  | running : DGState → Nat → PingOutcome
  | crashed : PyExc → DGState → Nat → PingOutcome

/-- Total reconnect attempts recorded by a `PingOutcome`. -/
def PingOutcome.attempts : PingOutcome → Nat
  | .running _ n => n
  | .crashed _ _ n => n

/-- Whether the ping loop is still running. -/
def PingOutcome.isRunning : PingOutcome → Bool
  | .running _ _ => true
  | .crashed _ _ _ => false

/-- Model of `Gateway._ping_loop` over `iters` iterations of `while True`,
with `wsClosed` the (held fixed) `ws.closed` flag and `attempts` the
reconnect attempts made so far.  When `ws.closed or self._zombies.is_set()`,
the reconnect block runs; whatever its non-crashing result, execution
falls through to the heartbeat wait and send, and the loop repeats. -/
def Gateway.ping_loop_run (outcome : Nat → Bool) (wsClosed : Bool) :
    DGState → Nat → Nat → PingOutcome
  | s, attempts, 0 => .running s attempts
  | s, attempts, iters + 1 =>
    if wsClosed || s.zombies then
      match Gateway.reconnect_for outcome s attempts 3 with
      | (k, .crashed e s1) => .crashed e s1 (attempts + k)
      | (k, .broke s1) =>
        Gateway.ping_loop_run outcome wsClosed
          (Gateway.send s1 (heartbeat_msg s1)) (attempts + k) iters
      | (k, .exhausted s1) =>
        Gateway.ping_loop_run outcome wsClosed
          (Gateway.send s1 (heartbeat_msg s1)) (attempts + k) iters
    else
      Gateway.ping_loop_run outcome wsClosed
        (Gateway.send s (heartbeat_msg s)) attempts iters

/-! Concrete inputs used by counterexamples and witnesses. -/

/-- A well-formed dispatch-type frame with sequence 7. -/
def goodFrame : Option JVal :=
  some (.jobj [("op", .jint 0), ("d", .jnull), ("s", .jint 7), ("t", .jstr "evt")])

/-- A well-formed hello frame advertising a 5000 ms heartbeat interval. -/
def helloFrame : Option JVal :=
  some (.jobj [("op", .jint 10), ("d", .jobj [("heartbeat_interval", .jint 5000)]), ("s", .jnull)])

/-- The decoded hello message of `helloFrame`. -/
def helloMsg : GatewayMessage :=
  ⟨.jint 10, .jobj [("heartbeat_interval", .jint 5000)], .jnull, .jstr "", .jstr ""⟩

/-- A heartbeat-ack frame (op 11). -/
def ackFrame : Option JVal :=
  some (.jobj [("op", .jint 11), ("d", .jnull), ("s", .jnull)])

/-- The decoded message of `ackFrame`. -/
def ackMsg : GatewayMessage := ⟨.jint 11, .jnull, .jnull, .jstr "", .jstr ""⟩

/-- An invalid-session frame (op 9). -/
def op9Frame : Option JVal :=
  some (.jobj [("op", .jint 9), ("d", .jnull), ("s", .jnull)])

/-- The decoded message of `op9Frame`. -/
def op9Msg : GatewayMessage := ⟨.jint 9, .jnull, .jnull, .jstr "", .jstr ""⟩

/-- Whether a handling outcome was a normal return. -/
def HRes.isOk : HRes → Bool
  | .ok _ => true
  | .exc _ _ => false
  | .sysExit _ => false

/-! ## Claim theorems -/

/-- C4 (amended): a frame whose decode fails terminates the receive
loop — `parse_msg` runs outside the `try` block, so the error is not
caught, the remaining frames are never examined, and only post-decode
handling errors are logged and skipped. -/
theorem C4_decode_uncaught (hsem : HandlerSem) (s : DGState) (f : Option JVal)
    (rest : List (Option JVal)) (e : PyExc) (hf : parse_msg f = Except.error e) :
    Gateway.recv_loop hsem s (f :: rest) = RecvOutcome.decodeCrash e s rest := by
  simp [Gateway.recv_loop, hf]

/-- C4 witness: a malformed-JSON frame kills the loop from the initial state. -/
theorem C4_decode_uncaught_witness :
    Gateway.recv_loop hsem0 (DiscordGateway.init "t") [none] =
      RecvOutcome.decodeCrash PyExc.jsonDecodeError (DiscordGateway.init "t") [] :=
  C4_decode_uncaught hsem0 (DiscordGateway.init "t") none [] PyExc.jsonDecodeError rfl

/-- C4 counterexample: the claim says a decode error is logged, the frame
dropped, and the loop continues with the next frame; in fact a malformed
frame crashes the loop and the following well-formed frame is never
processed. -/
theorem C4_counterexample :
    Gateway.recv_loop hsem0 (DiscordGateway.init "t") [none, goodFrame] =
      RecvOutcome.decodeCrash PyExc.jsonDecodeError (DiscordGateway.init "t") [goodFrame] := rfl

/-- C7: when hello arrives with `heartbeat_interval = 5000` (ms), the
heartbeat field becomes 5 (s), the ping loop thereafter waits 5 s
between heartbeats, the countdown created by the hello branch has
duration `2 × 5 = 10` s, and its firing sets the zombie flag. -/
theorem C7_hello_timing (hsem : HandlerSem) (s : DGState) (msg : GatewayMessage)
    (hop : msg.op = JVal.jint 10)
    (hdata : pyIndex msg.data "heartbeat_interval" = Except.ok (JVal.jint 5000)) :
    (DiscordGateway.handle_message hsem s msg).isOk = true ∧
    ((DiscordGateway.handle_message hsem s msg).state).heartbeat = 5 ∧
    ping_wait (DiscordGateway.handle_message hsem s msg).state = 5 ∧
    ((DiscordGateway.handle_message hsem s msg).state).zombie_countdown = some ⟨s.nextId, 5⟩ ∧
    Timer.duration ⟨s.nextId, 5⟩ = 10 ∧
    (zombie_timer_fire (DiscordGateway.handle_message hsem s msg).state).zombies = true := by
  have h5 : ((5000 : Int) : Rat) / 1000 = 5 := by norm_num
  simp [DiscordGateway.handle_message, pyEqInt, hop, hdata, pyDiv1000, h5, create_countdown,
        Gateway.send, HRes.isOk, HRes.state, ping_wait, zombie_timer_fire, Timer.duration]
  norm_num

/-- C7 witness: the timing properties at the concrete hello frame. -/
theorem C7_hello_timing_witness :
    (DiscordGateway.handle_message hsem0 (DiscordGateway.init "t") helloMsg).isOk = true ∧
    ((DiscordGateway.handle_message hsem0 (DiscordGateway.init "t") helloMsg).state).heartbeat = 5 ∧
    ping_wait (DiscordGateway.handle_message hsem0 (DiscordGateway.init "t") helloMsg).state = 5 ∧
    ((DiscordGateway.handle_message hsem0 (DiscordGateway.init "t") helloMsg).state).zombie_countdown =
      some ⟨(DiscordGateway.init "t").nextId, 5⟩ ∧
    Timer.duration ⟨(DiscordGateway.init "t").nextId, 5⟩ = 10 ∧
    (zombie_timer_fire
      (DiscordGateway.handle_message hsem0 (DiscordGateway.init "t") helloMsg).state).zombies = true :=
  C7_hello_timing hsem0 (DiscordGateway.init "t") helloMsg rfl rfl

/-- The send loop writes the queue to the wire unchanged. -/
theorem send_loop_wire_eq (q : List JVal) : Gateway.send_loop_wire q = q := by
  induction q with
  | nil => rfl
  | cons m rest ih => simp [Gateway.send_loop_wire, ih]

/-- Repeated `send` appends the messages, in order, to the queue tail. -/
theorem foldl_send_q (msgs : List JVal) (s : DGState) :
    (msgs.foldl Gateway.send s).q = s.q ++ msgs := by
  induction msgs generalizing s with
  | nil => simp
  | cons m rest ih => simp [List.foldl, Gateway.send, ih]

/-- C8: messages enqueued via `send` in order are written to the wire in
exactly that order (the queue is FIFO and the send loop is its only
consumer), and `send` is a total append to the queue tail — it never
blocks or fails for the caller. -/
theorem C8_fifo (s : DGState) (msgs : List JVal) :
    Gateway.send_loop_wire ((msgs.foldl Gateway.send s).q) = s.q ++ msgs ∧
    ∀ m, (Gateway.send s m).q = s.q ++ [m] :=
  ⟨by rw [send_loop_wire_eq, foldl_send_q], fun _ => rfl⟩

/-- C10: any `Exception`-class error raised while handling a decoded
message (after `self._sequence` is assigned) is caught by the receive
loop's `except Exception`, which logs it and continues with the
remaining frames. -/
theorem C10_recv_catches (hsem : HandlerSem) (s : DGState) (f : Option JVal)
    (rest : List (Option JVal)) (m : GatewayMessage) (e : PyExc) (s2 : DGState)
    (hf : parse_msg f = Except.ok m)
    (hh : DiscordGateway.handle_message hsem { s with sequence := m.sequence } m =
      HRes.exc e s2) :
    Gateway.recv_loop hsem s (f :: rest) = Gateway.recv_loop hsem s2 rest := by
  simp [Gateway.recv_loop, hf, hh]

/-- C10 witness: a heartbeat-ack arriving before any hello raises
`AttributeError` from `None.cancel()`, which is caught, and the loop
continues with the rest of the frames. -/
theorem C10_recv_catches_witness :
    Gateway.recv_loop hsem0 (DiscordGateway.init "t") [ackFrame] =
      Gateway.recv_loop hsem0 { DiscordGateway.init "t" with sequence := JVal.jnull } [] :=
  C10_recv_catches hsem0 (DiscordGateway.init "t") ackFrame [] ackMsg
    (PyExc.attributeError "cancel") { DiscordGateway.init "t" with sequence := JVal.jnull }
    rfl rfl

/-- C9: whenever a reconnect attempt succeeds, the ping loop's success
branch evaluates `self._zombie.clear()` on an attribute no constructor
ever assigned (they assign `self._zombies`; the class-level annotation
creates no attribute), so the branch raises `AttributeError` out of the
ping loop and the zombie event is never cleared. -/
theorem C9_zombie_attribute (outcome : Nat → Bool) (s : DGState) (i r : Nat)
    (hattrs : s.attrs = discord_gateway_attrs) (hsucc : outcome i = true) :
    Gateway.reconnect_for outcome s i (r + 1) =
      (1, BranchRes.crashed (PyExc.attributeError "_zombie") (Gateway.reconnect_effect s)) ∧
    (Gateway.reconnect_effect s).zombies = s.zombies := by
  have hno : "_zombie" ∉ (Gateway.reconnect_effect s).attrs := by
    show "_zombie" ∉ s.attrs
    rw [hattrs]
    decide
  refine ⟨?_, rfl⟩
  simp [Gateway.reconnect_for, hsucc, zombie_clear, hno]

/-- C9 witness: a first-attempt success from the freshly constructed
state crashes with `AttributeError` on `_zombie`. -/
theorem C9_zombie_attribute_witness :
    (Gateway.reconnect_for (fun _ => true) (DiscordGateway.init "t") 0 3 =
      (1, BranchRes.crashed (PyExc.attributeError "_zombie")
        (Gateway.reconnect_effect (DiscordGateway.init "t"))) ∧
    (Gateway.reconnect_effect (DiscordGateway.init "t")).zombies =
      (DiscordGateway.init "t").zombies) :=
  C9_zombie_attribute (fun _ => true) (DiscordGateway.init "t") 0 2 rfl rfl

/-- When every attempt in the window fails, the reconnect block makes
exactly `r` attempts and ends in the `for`-`else` with the state
untouched. -/
theorem reconnect_for_all_fail (outcome : Nat → Bool) (s : DGState) :
    ∀ r i, (∀ j, j < r → outcome (i + j) = false) →
      Gateway.reconnect_for outcome s i r = (r, BranchRes.exhausted s) := by
  intro r
  induction r with
  | zero => intro i _; rfl
  | succ r ih =>
    intro i h
    have h0 : outcome i = false := by simpa using h 0 (Nat.succ_pos r)
    have hrest : ∀ j, j < r → outcome (i + 1 + j) = false := by
      intro j hj
      have := h (j + 1) (by omega)
      simpa [Nat.add_assoc, Nat.add_comm 1 j] using this
    simp [Gateway.reconnect_for, h0, ih (i + 1) hrest]

/-- C1 (amended): one execution of the reconnect block makes at most 3
attempts, but when all 3 fail the engine only logs — there is no
Terminated state and no `ReconnectExhausted` error — and the ping loop
iteration falls through to the heartbeat send and repeats, so further
attempts follow on the next iteration while the socket stays closed. -/
theorem C1_reconnect_retry (outcome : Nat → Bool) (s : DGState) (i iters : Nat)
    (hfail : ∀ j, j < 3 → outcome (i + j) = false) :
    (Gateway.reconnect_for outcome s i 3).1 = 3 ∧
    (Gateway.reconnect_for outcome s i 3).2 = BranchRes.exhausted s ∧
    Gateway.ping_loop_run outcome true s i (iters + 1) =
      Gateway.ping_loop_run outcome true (Gateway.send s (heartbeat_msg s)) (i + 3) iters := by
  have hfor := reconnect_for_all_fail outcome s 3 i hfail
  refine ⟨by rw [hfor], by rw [hfor], ?_⟩
  simp [Gateway.ping_loop_run, hfor]

/-- C1 witness: with every attempt failing from the initial state, the
block reports 3 attempts, the `for`-`else`, and the loop equation. -/
theorem C1_reconnect_retry_witness :
    (Gateway.reconnect_for (fun _ => false) (DiscordGateway.init "t") 0 3).1 = 3 ∧
    (Gateway.reconnect_for (fun _ => false) (DiscordGateway.init "t") 0 3).2 =
      BranchRes.exhausted (DiscordGateway.init "t") ∧
    Gateway.ping_loop_run (fun _ => false) true (DiscordGateway.init "t") 0 1 =
      Gateway.ping_loop_run (fun _ => false) true
        (Gateway.send (DiscordGateway.init "t") (heartbeat_msg (DiscordGateway.init "t"))) 3 0 :=
  C1_reconnect_retry (fun _ => false) (DiscordGateway.init "t") 0 0 (fun _ _ => rfl)

/-- Ping-loop start state with the zombie event already set. -/
def pingStart : DGState := { DiscordGateway.init "t" with zombies := true }

/-- C1 counterexample: with the connection dead and every reconnect
attempt failing, two `while True` iterations make 6 reconnect attempts —
a 4th attempt *is* made — and the loop is still running: nothing was
surfaced to the caller and no Terminated state was reached. -/
theorem C1_counterexample :
    (Gateway.ping_loop_run (fun _ => false) true pingStart 0 2).attempts = 6 ∧
    (Gateway.ping_loop_run (fun _ => false) true pingStart 0 2).isRunning = true :=
  ⟨rfl, rfl⟩

/-- C2 (amended): the hello branch always enqueues an identify
handshake, regardless of Session identity, and the reconnect procedure
always enqueues a resume carrying the current `sessionId` and
`lastSequence`, even when they are empty — there is no conditional
choice between resume and identify. -/
theorem C2_handshakes (hsem : HandlerSem) (s : DGState) (msg : GatewayMessage) (n : Int)
    (hop : msg.op = JVal.jint 10)
    (hdata : pyIndex msg.data "heartbeat_interval" = Except.ok (JVal.jint n)) :
    ((DiscordGateway.handle_message hsem s msg).state).q = s.q ++ [identify_json s] ∧
    (Gateway.reconnect_effect s).q = s.q ++ [gateway_resume s] := by
  refine ⟨?_, rfl⟩
  simp [DiscordGateway.handle_message, pyEqInt, hop, hdata, pyDiv1000, create_countdown,
        Gateway.send, HRes.state, identify_json]

/-- C2 witness: the concrete hello enqueues the identify payload from
the initial state. -/
theorem C2_handshakes_witness :
    ((DiscordGateway.handle_message hsem0 (DiscordGateway.init "t") helloMsg).state).q =
      (DiscordGateway.init "t").q ++ [identify_json (DiscordGateway.init "t")] ∧
    (Gateway.reconnect_effect (DiscordGateway.init "t")).q =
      (DiscordGateway.init "t").q ++ [gateway_resume (DiscordGateway.init "t")] :=
  C2_handshakes hsem0 (DiscordGateway.init "t") helloMsg 5000 rfl rfl

/-- C2 counterexample: with Session identity empty (as it always is —
`_session_id` is never assigned after `__init__`), the claim requires an
identify handshake, but a successful reconnect enqueues a *resume*
(op 6) carrying the empty session id and a null sequence. -/
theorem C2_counterexample :
    (DiscordGateway.init "t").session_id = "" ∧
    (Gateway.reconnect_effect (DiscordGateway.init "t")).q =
      [JVal.jobj [("op", JVal.jint 6),
                  ("d", JVal.jobj [("token", JVal.jstr "t"),
                                   ("session_id", JVal.jstr ""),
                                   ("seq", JVal.jnull)])]] :=
  ⟨rfl, rfl⟩

/-- C3 (amended): on the invalid-session opcode (op 9) the code logs and
calls `exit()`, raising `SystemExit` with the state untouched — it does
not clear `Session.sessionId`, does not trigger a reconnect, and does
exit the process. -/
theorem C3_invalid_session (hsem : HandlerSem) (s : DGState) (msg : GatewayMessage)
    (hop : msg.op = JVal.jint 9) :
    DiscordGateway.handle_message hsem s msg = HRes.sysExit s := by
  simp [DiscordGateway.handle_message, pyEqInt, hop]

/-- C3 witness: the concrete op-9 message exits with the state untouched. -/
theorem C3_invalid_session_witness :
    DiscordGateway.handle_message hsem0 (DiscordGateway.init "t") op9Msg =
      HRes.sysExit (DiscordGateway.init "t") :=
  C3_invalid_session hsem0 (DiscordGateway.init "t") op9Msg rfl

/-- C3 counterexample: an inbound op-9 frame makes the receive loop die
on `SystemExit` (process exit), with the session id unchanged and no
reconnect handshake enqueued — contradicting "recovers locally and never
exits the process". -/
theorem C3_counterexample :
    Gateway.recv_loop hsem0 (DiscordGateway.init "t") [op9Frame] =
      RecvOutcome.exitCrash { DiscordGateway.init "t" with sequence := JVal.jnull } [] ∧
    ((Gateway.recv_loop hsem0 (DiscordGateway.init "t") [op9Frame]).state).session_id = "" ∧
    ((Gateway.recv_loop hsem0 (DiscordGateway.init "t") [op9Frame]).state).q = [] :=
  ⟨rfl, rfl, rfl⟩

/-- With the trivial handler semantics, `handle_message` never changes
the stored sequence: only the receive loop's unconditional assignment
does. -/
theorem handle_message_sequence (s : DGState) (m : GatewayMessage) :
    ((DiscordGateway.handle_message hsem0 s m).state).sequence = s.sequence := by
  unfold DiscordGateway.handle_message hsem0
  split_ifs
  all_goals repeat' split
  all_goals simp [HRes.state, Gateway.send, create_countdown]

/-- C5 (amended): the receive loop sets `Session.lastSequence` to the
decoded sequence of *every* inbound message, unconditionally — not only
dispatch-type ones — so a control frame with a null sequence overwrites
any previously recorded integer; the value is not monotonic. -/
theorem C5_sequence_overwrite (s : DGState) (f : Option JVal) (m : GatewayMessage)
    (hf : parse_msg f = Except.ok m) :
    ((Gateway.recv_loop hsem0 s [f]).state).sequence = m.sequence := by
  have hgoal : (Gateway.recv_loop hsem0 s [f]).state =
      (DiscordGateway.handle_message hsem0 { s with sequence := m.sequence } m).state := by
    simp only [Gateway.recv_loop, hf]
    rcases DiscordGateway.handle_message hsem0 { s with sequence := m.sequence } m
      with s2 | ⟨e, s2⟩ | s2 <;> rfl
  rw [hgoal, handle_message_sequence]

/-- A dispatch-type frame with sequence 5. -/
def seqFrame1 : Option JVal :=
  some (.jobj [("op", .jint 0), ("d", .jnull), ("s", .jint 5), ("t", .jstr "evt")])

/-- The decoded message of `seqFrame1`. -/
def seqMsg1 : GatewayMessage := ⟨.jint 0, .jnull, .jint 5, .jstr "", .jstr "evt"⟩

/-- A control frame (op 10 without an interval field) with a null
sequence. -/
def seqFrame2 : Option JVal :=
  some (.jobj [("op", .jint 10), ("d", .jobj []), ("s", .jnull)])

/-- C5 witness: processing the concrete dispatch frame leaves its
sequence, 5, in the session. -/
theorem C5_sequence_overwrite_witness :
    ((Gateway.recv_loop hsem0 (DiscordGateway.init "t") [seqFrame1]).state).sequence =
      seqMsg1.sequence :=
  C5_sequence_overwrite (DiscordGateway.init "t") seqFrame1 seqMsg1 rfl

/-- C5 counterexample: after recording sequence 5 from a dispatch frame,
a later control frame with a null sequence resets the recorded value to
null — the claim's monotonic, dispatch-only update fails. -/
theorem C5_counterexample :
    ((Gateway.recv_loop hsem0 (DiscordGateway.init "t") [seqFrame1]).state).sequence =
      JVal.jint 5 ∧
    ((Gateway.recv_loop hsem0 (DiscordGateway.init "t") [seqFrame1, seqFrame2]).state).sequence =
      JVal.jnull :=
  ⟨rfl, rfl⟩

/-- C6 (amended): only the heartbeat-ack branch cancels the outstanding
countdown before starting a fresh one; the hello branch starts a new
countdown without cancelling any prior one. -/
theorem C6_ack_restart (hsem : HandlerSem) (s : DGState) (msg : GatewayMessage) (t : Timer)
    (hop : msg.op = JVal.jint 11) (hcd : s.zombie_countdown = some t) :
    DiscordGateway.handle_message hsem s msg =
      HRes.ok { s with
        outstanding := s.outstanding.erase t ++ [⟨s.nextId, s.heartbeat⟩],
        nextId := s.nextId + 1,
        zombie_countdown := some ⟨s.nextId, s.heartbeat⟩ } := by
  simp [DiscordGateway.handle_message, pyEqInt, hop, hcd, create_countdown]

/-- A state with one outstanding countdown, as after a first hello. -/
def ackState : DGState :=
  { DiscordGateway.init "t" with
    zombie_countdown := some ⟨0, 60⟩, outstanding := [⟨0, 60⟩], nextId := 1 }

/-- C6 witness: an ack on `ackState` cancels task 0 and starts task 1. -/
theorem C6_ack_restart_witness :
    DiscordGateway.handle_message hsem0 ackState ackMsg =
      HRes.ok { ackState with
        outstanding := ackState.outstanding.erase ⟨0, 60⟩ ++ [⟨ackState.nextId, ackState.heartbeat⟩],
        nextId := ackState.nextId + 1,
        zombie_countdown := some ⟨ackState.nextId, ackState.heartbeat⟩ } :=
  C6_ack_restart hsem0 ackState ackMsg ⟨0, 60⟩ rfl rfl

/-- C6 counterexample: two hello frames in a row leave *two* countdown
tasks outstanding (ids 0 and 1) — the second start cancelled nothing,
violating "every start of a fresh countdown cancels any prior one". -/
theorem C6_counterexample :
    (((Gateway.recv_loop hsem0 (DiscordGateway.init "t") [helloFrame, helloFrame]).state).outstanding.map
        Timer.id) = [0, 1] ∧
    ((Gateway.recv_loop hsem0 (DiscordGateway.init "t")
        [helloFrame, helloFrame]).state).outstanding.length = 2 :=
  ⟨rfl, rfl⟩
